import Mathlib

/-!
Shallow embedding of the HF-Weather-Alert-Lambda enrichment pipeline
(`src/weather_integration.py`) and proofs about it.

Modelling conventions:
* Python strings are Lean `String`s (ASCII data in all relevant inputs);
  `str.upper()` is modelled by `upperStr`, which uppercases ASCII letters.
* pandas' float `NaN` (missing values from `read_csv` and from an
  unmatched left join) is `Cell.null`, while a Python `None` stored in an
  object column (the no-match branch's defaults and `None` values inside
  `df_alerts`) is `Cell.pynone`: `astype(str)` renders them `'nan'` and
  `'None'` respectively, and the sanitize pass blanks only `'nan'`.  Alert
  timestamp fields use `Option.none`; Python truthiness of an optional
  string (`if s:`) is modelled by `truthy`.
* `pd.to_datetime` is abstracted by a parameter `parse : String → Option Int`
  (timestamps live on a single totally ordered timeline; a parse failure,
  which raises in Python and is caught by the surrounding `try`, is `none`).
* A Python exception escaping a function is modelled by `Except.error`.
* The Python `set` of valid CWA office codes is modelled by a `List String`
  recording its iteration order; membership is `List.contains`.
-/

/-- A cell of a pandas data frame: a float `NaN` (`null`), a Python `None`
held in an object column (`pynone`), a string, a boolean, or a
(non-negative) number.  `NaN` and `None` are both missing values to the
join/groupby/to_csv machinery but stringify differently under
`astype(str)`. -/
inductive Cell where
  | null : Cell
  | pynone : Cell
  | str (s : String) : Cell
  | boolv (b : Bool) : Cell
  | num (n : Nat) : Cell
deriving DecidableEq, Repr

/-- ASCII uppercase of one character, as Python `str.upper` acts on ASCII. -/
def upperChar (c : Char) : Char :=
  if 'a' ≤ c ∧ c ≤ 'z' then Char.ofNat (c.toNat - 32) else c

/-- ASCII uppercase of a string, modelling Python `str.upper()`. -/
def upperStr (s : String) : String :=
  ⟨s.data.map upperChar⟩

/-- Auxiliary for `splitChar`: accumulates the current piece (reversed). -/
def splitCharAux (c : Char) : List Char → List Char → List String
  | [], acc => [⟨acc.reverse⟩]
  | x :: xs, acc =>
      if x = c then (⟨acc.reverse⟩ : String) :: splitCharAux c xs []
      else splitCharAux c xs (x :: acc)

/-- Python `s.split(c)` for a one-character separator: splits at every
occurrence, keeping empty pieces (`"".split('-') == ['']`). -/
def splitChar (c : Char) (s : String) : List String :=
  splitCharAux c s.data []

/-- Does `hay` start with `needle` (character lists)? -/
def startsWithL : List Char → List Char → Bool
  | _, [] => true
  | [], _ :: _ => false
  | h :: hs, n :: ns => h = n && startsWithL hs ns

/-- Does `hay` contain `needle` as a contiguous sublist?  Models Python
`needle in hay` on strings. -/
def hasSub (needle : List Char) : List Char → Bool
  | [] => needle.isEmpty
  | c :: rest => startsWithL (c :: rest) needle || hasSub needle rest

/-- Python `needle in hay` for strings. -/
def strContains (hay needle : String) : Bool :=
  hasSub needle.data hay.data

/-- Python truthiness of an optional string: `None` and `""` are falsy. -/
def truthy : Option String → Bool
  | none => false
  | some s => s != ""

/-- Models Python
`props.get(k, '') if props.get(k) else None`. -/
def optStr (s : String) : Option String :=
  if s = "" then none else some s

/-- First `n` characters of a string, Python `s[:n]`. -/
def takeChars (n : Nat) (s : String) : String :=
  ⟨s.data.take n⟩

/-- Models `get_severity_score` from `weather_integration.py`:
Extreme→4, Severe→3, Moderate→2, Minor→1, anything else→0. -/
def get_severity_score (severity : String) : Nat :=
  if severity = "Extreme" then 4
  else if severity = "Severe" then 3
  else if severity = "Moderate" then 2
  else if severity = "Minor" then 1
  else 0

/-- Models `is_alert_active` from `weather_integration.py`.  `status` is the raw
status field (Python `None` modelled as `""`, both compare unequal to
`"Actual"`); `effective`/`expires` are the raw timestamp fields; `now` is
the current time; `parse` abstracts `pd.to_datetime` (`none` = the parse
raises, which the function's `try/except` resolves to `False`). -/
def is_alert_active (status : String) (effective expires : Option String)
    (now : Int) (parse : String → Option Int) : Bool :=
  if status ≠ "Actual" then false
  else if truthy effective && truthy expires then
    match parse (effective.getD ""), parse (expires.getD "") with
    | some e, some x => decide (e ≤ now ∧ now ≤ x)
    | _, _ => false
  else true

/-- The `areaDesc` property of an alert: the feed interface permits a string
or a list of strings; a missing key defaults to `""` (`props.get('areaDesc', '')`). -/
inductive AreaDesc where
  | str (s : String) : AreaDesc
  | list (l : List String) : AreaDesc
deriving DecidableEq, Repr

/-- The `properties` object of one alert from the NWS feed, holding the
fields `match_alerts_to_cwa` and `is_alert_active` read.  Plain-string
fields model `props.get(k, '')` (a missing or null value is `""`, which is
exactly how the code distinguishes them — by truthiness); `effective`,
`expires` keep `Option` to distinguish an absent value; `affectedZones`
is `none` when the key is absent (`'affectedZones' in props`). -/
structure AlertProps where
  id : String
  event : String
  severity : String
  urgency : String
  certainty : String
  status : String
  headline : String
  description : String
  instruction : String
  areaDesc : AreaDesc
  effective : Option String
  expires : Option String
  messageType : String
  affectedZones : Option (List String)
deriving DecidableEq, Repr

/-- Strategy 1 scan: first `-`-separated segment of the alert id of length 3
whose uppercase form is in the valid-code set wins. -/
def s1find (codes : List String) : List String → Option String
  | [] => none
  | p :: ps =>
      if p.length = 3 && codes.contains (upperStr p) then some (upperStr p)
      else s1find codes ps

/-- Strategy 1 of `match_alerts_to_cwa` ("alert_id"): guarded by the
truthiness of the id (`if alert_id:`). -/
def strategy1 (id : String) (codes : List String) : Option String :=
  if id = "" then none else s1find codes (splitChar '-' id)

/-- One character of the `[CZ]?` part of the zone regex (case-insensitive). -/
def isCZ (c : Char) : Bool :=
  c = 'C' || c = 'Z' || c = 'c' || c = 'z'

/-- ASCII letter test, `[A-Z]` under `re.IGNORECASE`. -/
def isAsciiAlpha (c : Char) : Bool :=
  ('a' ≤ c && c ≤ 'z') || ('A' ≤ c && c ≤ 'Z')

/-- ASCII digit test, `\d`. -/
def isAsciiDigit (c : Char) : Bool :=
  '0' ≤ c && c ≤ '9'

/-- Does `[CZ]?\d+` match at the head of `cs` (with backtracking over the
optional `[CZ]`)? -/
def zoneTailOk : List Char → Bool
  | [] => false
  | c :: rest =>
      if isAsciiDigit c then true
      else if isCZ c then
        match rest with
        | d :: _ => isAsciiDigit d
        | [] => false
      else false

/-- The `([A-Z]{2,3})[CZ]?\d+` part of the zone regex at the head of `cs`:
greedily try three letters, backtrack to two; returns the captured group. -/
def zoneCode : List Char → Option (List Char)
  | a :: b :: c :: rest =>
      if isAsciiAlpha a && isAsciiAlpha b then
        if isAsciiAlpha c && zoneTailOk rest then some [a, b, c]
        else if zoneTailOk (c :: rest) then some [a, b]
        else none
      else none
  | _ => none

/-- What follows the first `/` in `cs`, if any. -/
def dropToSlash : List Char → Option (List Char)
  | [] => none
  | d :: ds => if d = '/' then some ds else dropToSlash ds

/-- After the literal `/zones/`, the regex needs `[^/]+/`: at least one
non-`/` character, then the first following `/`; returns what follows it. -/
def zoneSeg : List Char → Option (List Char)
  | [] => none
  | c :: rest => if c = '/' then none else dropToSlash rest

/-- Try the whole zone regex anchored at the head of `cs`. -/
def zoneAt (cs : List Char) : Option (List Char) :=
  if startsWithL (cs.map upperChar) "/ZONES/".data then
    match zoneSeg (cs.drop 7) with
    | some rest => zoneCode rest
    | none => none
  else none

/-- Leftmost search of `re.search(r'/zones/[^/]+/([A-Z]{2,3})[CZ]?\d+', url,
re.IGNORECASE)`: the captured group, uppercased (`zone_match.group(1).upper()`). -/
def zoneExtract (url : String) : Option String :=
  go url.data
where
  go : List Char → Option String
    | [] => none
    | c :: rest =>
        match zoneAt (c :: rest) with
        | some g => some ⟨g.map upperChar⟩
        | none => go rest

/-- Strategy 2 scan over the zone-reference URLs: an extracted code that is
not in the valid-code set does not stop the scan (the `break` sits inside
the membership test). -/
def s2scan (codes : List String) : List String → Option String
  | [] => none
  | u :: us =>
      match zoneExtract u with
      | some z => if codes.contains z then some z else s2scan codes us
      | none => s2scan codes us

/-- Strategy 2 of `match_alerts_to_cwa` ("affected_zones"), guarded by
`'affectedZones' in props`. -/
def strategy2 (zones : Option (List String)) (codes : List String) : Option String :=
  match zones with
  | none => none
  | some zs => s2scan codes zs


/-- The static `state_cwa_mapping` table of strategy 3, transcribed verbatim
from `weather_integration.py` (dict iteration order = insertion order). -/
def state_cwa_mapping : List (String × List String) :=
  [("CALIFORNIA", ["LOX", "MTR", "SGX", "HNX", "STO", "EKA", "MFR"]),
   ("TEXAS", ["FWD", "HGX", "EWX", "LZK", "EPZ"]),
   ("FLORIDA", ["MFL", "TBW", "JAX", "MLB"]),
   ("NEW YORK", ["OKX", "ALY", "BGM", "BUF"]),
   ("PENNSYLVANIA", ["PHI", "PBZ", "BGM", "CTP"]),
   ("ILLINOIS", ["LOT", "ILX"]),
   ("VIRGINIA", ["LWX", "AKQ", "RNK"]),
   ("WASHINGTON", ["SEW", "OTX", "PQR"]),
   ("COLORADO", ["BOU", "GJT", "PUB"]),
   ("MONTANA", ["TFX", "MSO", "BYZ", "GGW"]),
   ("NORTH CAROLINA", ["RAH", "GSP", "ILM", "MHX"]),
   ("SOUTH CAROLINA", ["CAE", "CHS", "GSP"]),
   ("GEORGIA", ["FFC", "JAX"]),
   ("ALABAMA", ["BMX", "HUN", "MOB"]),
   ("TENNESSEE", ["OHX", "MEG"]),
   ("KENTUCKY", ["JKL", "PAH", "LMK"]),
   ("OHIO", ["CLE", "ILN", "PBZ"]),
   ("MICHIGAN", ["DTX", "GRR", "APX"]),
   ("WISCONSIN", ["MKX", "GRB", "MPX"]),
   ("MINNESOTA", ["MPX", "DLH"]),
   ("IOWA", ["DVN", "DMX", "ARX"]),
   ("MISSOURI", ["SGF", "LSX", "EAX"]),
   ("ARKANSAS", ["LZK", "SHV", "TSA"]),
   ("LOUISIANA", ["LIX", "SHV", "LCH"]),
   ("MISSISSIPPI", ["JAN", "LIX"]),
   ("OKLAHOMA", ["OUN", "TSA"]),
   ("KANSAS", ["ICT", "TOP", "DDC"]),
   ("NEBRASKA", ["OAX", "GID", "LBF"]),
   ("SOUTH DAKOTA", ["FSD", "ABR", "UNR"]),
   ("NORTH DAKOTA", ["BIS", "FGF", "GFK"]),
   ("WYOMING", ["CYS", "RIW"]),
   ("UTAH", ["SLC"]),
   ("NEVADA", ["REV", "VEF", "LKN"]),
   ("ARIZONA", ["PSR", "TWC", "FGZ"]),
   ("NEW MEXICO", ["ABQ", "EPZ"]),
   ("IDAHO", ["BOI", "PIH", "MSO"]),
   ("OREGON", ["PQR", "MFR", "PDT"]),
   ("ALASKA", ["AFC", "AJK", "AFG"]),
   ("HAWAII", ["HFO"]),
   ("PUERTO RICO", ["SJU"])]

/-- First candidate office code of a state entry that is in the valid set. -/
def firstValid (codes : List String) : List String → Option String
  | [] => none
  | c :: cs => if codes.contains c then some c else firstValid codes cs

/-- Strategy 3 scan over the state table: a state whose name occurs in the
(uppercased) area description but none of whose candidates is valid does not
stop the scan (the outer `break` fires only once `alert_office` is set). -/
def s3states (codes : List String) (areaU : List Char) :
    List (String × List String) → Option String
  | [] => none
  | (st, cwas) :: rest =>
      if hasSub st.data areaU then
        match firstValid codes cwas with
        | some c => some c
        | none => s3states codes areaU rest
      else s3states codes areaU rest

/-- Strategy 3 of `match_alerts_to_cwa` ("state_mapping").  The very first
step, `props.get('areaDesc', '').upper()`, raises `AttributeError` when the
feed delivers `areaDesc` as a list — modelled by `Except.error`. -/
def strategy3 (ad : AreaDesc) (codes : List String) : Except String (Option String) :=
  match ad with
  | AreaDesc.list _ => Except.error "AttributeError: list has no upper"
  | AreaDesc.str s => Except.ok (s3states codes (upperStr s).data state_cwa_mapping)

/-- Strategy 4 scan over the valid-code set (in its iteration order) for one
text field: `"NWS <code>"` or `" <code> "` as a substring of the uppercased
text. -/
def s4codes (tu : String) : List String → Option String
  | [] => none
  | c :: cs =>
      if strContains tu ("NWS " ++ c) || strContains tu (" " ++ c ++ " ") then some c
      else s4codes tu cs

/-- Strategy 4 scan over the three text fields in order; a falsy (empty)
field is skipped. -/
def s4fields (codes : List String) : List String → Option String
  | [] => none
  | t :: ts =>
      if t = "" then s4fields codes ts
      else
        match s4codes (upperStr t) codes with
        | some c => some c
        | none => s4fields codes ts

/-- Strategy 4 of `match_alerts_to_cwa` ("text_content"): headline,
description, instruction, in that order. -/
def strategy4 (headline description instruction : String)
    (codes : List String) : Option String :=
  s4fields codes [headline, description, instruction]

/-- The four-strategy cascade of `match_alerts_to_cwa` for one alert:
returns the assigned office code and matching-method label, `none` when no
strategy succeeds, or an error when strategy 3 raises. -/
def matchOffice (p : AlertProps) (codes : List String) :
    Except String (Option (String × String)) :=
  match strategy1 p.id codes with
  | some c => Except.ok (some (c, "alert_id"))
  | none =>
      match strategy2 p.affectedZones codes with
      | some c => Except.ok (some (c, "affected_zones"))
      | none =>
          match strategy3 p.areaDesc codes with
          | Except.error e => Except.error e
          | Except.ok (some c) => Except.ok (some (c, "state_mapping"))
          | Except.ok none =>
              match strategy4 p.headline p.description p.instruction codes with
              | some c => Except.ok (some (c, "text_content"))
              | none => Except.ok none

/-- The `alert_data` record built for a matched alert
(`match_alerts_to_cwa`, lines 265–283 of `weather_integration.py`). -/
structure MatchedAlert where
  cwa_office : String
  alert_id : Option String
  event_type : Option String
  severity : Option String
  urgency : Option String
  certainty : Option String
  status : Option String
  headline : Option String
  description : Option String
  areas_affected : Option String
  effective_time : Option String
  expires_time : Option String
  message_type : Option String
  alert_active : Bool
  severity_score : Nat
  last_updated : String
  matching_method : String
deriving DecidableEq, Repr

/-- The `areas_affected` field: a list is joined with `"; "`, a truthy string is kept,
anything else becomes null. -/
def areasAffected : AreaDesc → Option String
  | AreaDesc.list l => some (String.intercalate "; " l)
  | AreaDesc.str s => if s = "" then none else some s

/-- Builds the `alert_data` dict for an alert assigned to office `c` with
method label `m`.  `now`/`parse` feed `is_alert_active`; `nowStr` is
`datetime.now().isoformat()` for `last_updated`. -/
def buildMatched (p : AlertProps) (c m : String) (now : Int)
    (parse : String → Option Int) (nowStr : String) : MatchedAlert :=
  { cwa_office := c
    alert_id := if p.id = "" then none else some (((splitChar '/' p.id).getLast?).getD "")
    event_type := optStr p.event
    severity := optStr p.severity
    urgency := optStr p.urgency
    certainty := optStr p.certainty
    status := optStr p.status
    headline := optStr p.headline
    description := if p.description = "" then none else some (takeChars 300 p.description)
    areas_affected := areasAffected p.areaDesc
    effective_time := if truthy p.effective then p.effective else none
    expires_time := if truthy p.expires then p.expires else none
    message_type := optStr p.messageType
    alert_active := is_alert_active p.status p.effective p.expires now parse
    severity_score := get_severity_score p.severity
    last_updated := nowStr
    matching_method := m }

/-- One iteration of the matcher loop: cascade, then the final guard
`if alert_office and alert_office in cwa_offices_set` before building. -/
def processAlert (p : AlertProps) (codes : List String) (now : Int)
    (parse : String → Option Int) (nowStr : String) :
    Except String (Option MatchedAlert) :=
  match matchOffice p codes with
  | Except.error e => Except.error e
  | Except.ok none => Except.ok none
  | Except.ok (some (c, m)) =>
      if c ≠ "" && codes.contains c then
        Except.ok (some (buildMatched p c m now parse nowStr))
      else Except.ok none

/-- Models `match_alerts_to_cwa`: processes the alerts in order, collecting the
matched ones; an exception raised for any alert aborts the whole loop. -/
def match_alerts_to_cwa (alerts : List AlertProps) (codes : List String)
    (now : Int) (parse : String → Option Int) (nowStr : String) :
    Except String (List MatchedAlert) :=
  match alerts with
  | [] => Except.ok []
  | a :: rest =>
      match processAlert a codes now parse nowStr with
      | Except.error e => Except.error e
      | Except.ok m =>
          match match_alerts_to_cwa rest codes now parse nowStr with
          | Except.error e => Except.error e
          | Except.ok ms =>
              Except.ok (match m with | some x => x :: ms | none => ms)

/-- A data-frame row: named cells in column order. -/
def Row : Type := List (String × Cell)

instance : DecidableEq Row := by
  unfold Row
  infer_instance

instance : Membership (String × Cell) Row := by
  unfold Row
  infer_instance

instance : Append Row := by
  unfold Row
  infer_instance

instance : HAppend Row (List (String × Cell)) Row := by
  unfold Row
  infer_instance

/-- Value of column `n` in row `r`; a column absent from the row reads as
missing (rows of one frame all carry the same columns). -/
def getCell (r : Row) (n : String) : Cell :=
  match r.find? (fun pc => pc.1 == n) with
  | some pc => pc.2
  | none => Cell.null

/-- Value of column `n` in row `r`, `none` when the column is absent. -/
def colOf (r : Row) (n : String) : Option Cell :=
  (r.find? (fun pc => pc.1 == n)).map (fun pc => pc.2)

/-- A string cell's value (`NaN`, booleans and numbers are not office-code
strings). -/
def cellStr? : Cell → Option String
  | Cell.str s => some s
  | _ => none

/-- The non-null office-code string of a row (`df[col].dropna()`). -/
def cwaValue (r : Row) (col : String) : Option String :=
  cellStr? (getCell r col)

/-- Order-preserving de-duplication (first occurrence wins). -/
def dedupAux : List String → List String → List String
  | [], acc => acc.reverse
  | x :: xs, acc => if acc.contains x then dedupAux xs acc else dedupAux xs (x :: acc)

/-- Order-preserving de-duplication of a list of strings. -/
def dedupFirst (l : List String) : List String :=
  dedupAux l []

/-- The valid-code list of a run: distinct uppercased non-null values of the
office-code column (`set(cwa.upper() for cwa in df[col].dropna().unique())`;
the CPython set's iteration order is an implementation artifact — this model
fixes first-occurrence order, and membership is order-independent). -/
def pipelineCodes (rows : List Row) (col : String) : List String :=
  dedupFirst ((rows.filterMap (fun r => cwaValue r col)).map upperStr)

/-- Line 42 runs `cwa.upper()` over the distinct non-null values of the
office column; a non-string value there (a float or boolean read from the
CSV) raises `AttributeError`, which the top-level handler turns into a
failed run.  True exactly when every non-missing cell of the office column
is a string. -/
def cwaColumnOk (rows : List Row) (col : String) : Bool :=
  rows.all fun r =>
    match getCell r col with
    | Cell.null => true
    | Cell.pynone => true
    | Cell.str _ => true
    | _ => false

/-- The ordered candidate list for the office-code column
(`possible_cwa_columns`). -/
def possible_cwa_columns : List String :=
  ["CWA_Region", "CWA_region", "CWA", "Weather_Office", "NWS_Office"]

/-- First candidate column name present in the frame's columns. -/
def findCwaColumn (columns : List String) : Option String :=
  possible_cwa_columns.find? (fun c => columns.contains c)

/-- Models `df_main.merge(df_alerts, left_on=cwa_column, right_on='cwa_office',
how='left')`: each input row in order; a row whose office value equals (as a
value, hence case-sensitively) the `cwa_office` of some matched alerts fans
out to one pair per such alert, otherwise it keeps one pair with no alert.
A null key never joins. -/
def mergeBlock (col : String) (ms : List MatchedAlert) (r : Row) :
    List (Row × Option MatchedAlert) :=
  match cwaValue r col with
  | none => [(r, none)]
  | some v =>
      if (ms.filter (fun a => a.cwa_office == v)).isEmpty then [(r, none)]
      else (ms.filter (fun a => a.cwa_office == v)).map (fun a => (r, some a))

/-- The left merge itself: concatenation of the per-row blocks in row
order. -/
def mergePairs (rows : List Row) (col : String) (ms : List MatchedAlert) :
    List (Row × Option MatchedAlert) :=
  rows.flatMap (mergeBlock col ms)

/-- Group key of a merged pair for the aggregate columns: the office-column
cell, with missing keys dropped (`groupby` excludes `NaN`/`None` keys). -/
def rowKey (col : String) (p : Row × Option MatchedAlert) : Option Cell :=
  match getCell p.1 col with
  | Cell.null => none
  | Cell.pynone => none
  | c => some c

/-- Models `groupby(cwa_column)['alert_id'].transform('count')` for key `k`:
the number of merged rows in the group with a non-null `alert_id`. -/
def countIds (pairs : List (Row × Option MatchedAlert)) (k : Cell)
    (col : String) : Nat :=
  (pairs.filter (fun p =>
    getCell p.1 col == k && (p.2.bind (fun a => a.alert_id)).isSome)).length

/-- Maximum of a list of naturals (0 for the empty list), as
`transform('max')` over non-null values followed by `fillna(0)`. -/
def natMax (l : List Nat) : Nat :=
  l.foldr max 0

/-- Models `groupby(cwa_column)['severity_score'].transform('max')` for key `k`,
with `fillna(0)`. -/
def maxSev (pairs : List (Row × Option MatchedAlert)) (k : Cell)
    (col : String) : Nat :=
  natMax (pairs.filterMap (fun p =>
    if getCell p.1 col == k then p.2.map (fun a => a.severity_score) else none))

/-- One row of the enhanced frame, before column layout: the original input
cells, the joined alert (if any), and the four derived per-row columns. -/
structure EnrichedRow where
  cells : Row
  alert : Option MatchedAlert
  alert_active : Bool
  has_active_alerts : Bool
  alert_count : Nat
  max_severity_score : Nat
deriving DecidableEq

/-- The matched branch of `integrate_weather_alerts` (lines 54–77): merge,
normalize `alert_active` (`fillna(False)`), copy it into
`has_active_alerts`, and broadcast the two group aggregates. -/
def mergeAndAggregate (rows : List Row) (col : String)
    (ms : List MatchedAlert) : List EnrichedRow :=
  let pairs := mergePairs rows col ms
  pairs.map fun p =>
    let act := (p.2.map (fun a => a.alert_active)).getD false
    { cells := p.1
      alert := p.2
      alert_active := act
      has_active_alerts := act
      alert_count :=
        match rowKey col p with
        | none => 0
        | some k => countIds pairs k col
      max_severity_score :=
        match rowKey col p with
        | none => 0
        | some k => maxSev pairs k col }

/-- An optional string as a cell of `df_alerts`: the dicts built by the
matcher hold Python `None`, which an object column keeps as `None`
(`Cell.pynone`), not as a float `NaN`. -/
def oc : Option String → Cell
  | none => Cell.pynone
  | some s => Cell.str s

/-- The twenty derived columns of a merged output row, in frame order:
the seventeen `df_alerts` columns (null when the row joined no alert), then
`has_active_alerts`, `alert_count`, `max_severity_score`. -/
def mergedDerivedCells (e : EnrichedRow) : List (String × Cell) :=
  (match e.alert with
   | some a =>
      [("cwa_office", Cell.str a.cwa_office),
       ("alert_id", oc a.alert_id),
       ("event_type", oc a.event_type),
       ("severity", oc a.severity),
       ("urgency", oc a.urgency),
       ("certainty", oc a.certainty),
       ("status", oc a.status),
       ("headline", oc a.headline),
       ("description", oc a.description),
       ("areas_affected", oc a.areas_affected),
       ("effective_time", oc a.effective_time),
       ("expires_time", oc a.expires_time),
       ("message_type", oc a.message_type),
       ("alert_active", Cell.boolv e.alert_active),
       ("severity_score", Cell.num a.severity_score),
       ("last_updated", Cell.str a.last_updated),
       ("matching_method", Cell.str a.matching_method)]
   | none =>
      [("cwa_office", Cell.null),
       ("alert_id", Cell.null),
       ("event_type", Cell.null),
       ("severity", Cell.null),
       ("urgency", Cell.null),
       ("certainty", Cell.null),
       ("status", Cell.null),
       ("headline", Cell.null),
       ("description", Cell.null),
       ("areas_affected", Cell.null),
       ("effective_time", Cell.null),
       ("expires_time", Cell.null),
       ("message_type", Cell.null),
       ("alert_active", Cell.boolv e.alert_active),
       ("severity_score", Cell.null),
       ("last_updated", Cell.null),
       ("matching_method", Cell.null)])
  ++ [("has_active_alerts", Cell.boolv e.has_active_alerts),
      ("alert_count", Cell.num e.alert_count),
      ("max_severity_score", Cell.num e.max_severity_score)]

/-- The twenty `empty_columns` of the no-match branch (lines 84–91), in dict
order, with their fixed default values; the `None` assignments put Python
`None` (not `NaN`) into the object columns. -/
def emptyDerivedCells : List (String × Cell) :=
  [("cwa_office", Cell.pynone),
   ("alert_id", Cell.pynone),
   ("event_type", Cell.pynone),
   ("severity", Cell.pynone),
   ("urgency", Cell.pynone),
   ("certainty", Cell.pynone),
   ("status", Cell.pynone),
   ("headline", Cell.pynone),
   ("description", Cell.pynone),
   ("areas_affected", Cell.pynone),
   ("effective_time", Cell.pynone),
   ("expires_time", Cell.pynone),
   ("message_type", Cell.pynone),
   ("alert_active", Cell.boolv false),
   ("severity_score", Cell.num 0),
   ("last_updated", Cell.pynone),
   ("matching_method", Cell.pynone),
   ("has_active_alerts", Cell.boolv false),
   ("alert_count", Cell.num 0),
   ("max_severity_score", Cell.num 0)]

/-- Models `x.replace('"', '""').replace('\n', ' ').replace('\r', ' ')`. -/
def escapePy (s : String) : String :=
  ⟨s.data.flatMap fun c =>
    if c = '"' then ['"', '"']
    else if c = '\n' then [' ']
    else if c = '\r' then [' ']
    else [c]⟩

/-- Rendering of a cell by `astype(str)`: a float `NaN` prints as `'nan'`
while a Python `None` prints as `'None'` — the distinction the sanitize
lambda's `x != 'nan'` test acts on. -/
def pyStrCell : Cell → String
  | Cell.null => "nan"
  | Cell.pynone => "None"
  | Cell.str s => s
  | Cell.boolv b => if b then "True" else "False"
  | Cell.num n => toString n

/-- The sanitization lambda of lines 101–103 applied to one cell:
`astype(str)`, then escape, with the `'nan'` rendering of a missing value
replaced by the empty string. -/
def sanitizeCell (c : Cell) : Cell :=
  let s := pyStrCell c
  if s = "nan" then Cell.str "" else Cell.str (escapePy s)

/-- The free-text columns sanitized before serialization. -/
def text_fields : List String :=
  ["Organization Name", "Primary Address Street", "headline", "description",
   "areas_affected"]

/-- Sanitization pass over one row: each cell of a column named in
`text_fields` is rewritten in place. -/
def sanitizeRow (r : Row) : Row :=
  r.map fun pc =>
    if text_fields.contains pc.1 then (pc.1, sanitizeCell pc.2) else pc

/-- Models `integrate_weather_alerts (input_file, output_file)`, with I/O
abstracted away: the input table is `rows` over `columns`, the fetched feed
is `alerts`, and the result is the serialized table (`some` = the function
returns `True`) or `none` (= the missing-column check or a caught
exception — including the `AttributeError` that `cwa.upper()` raises on a
non-string office value at line 42 — returning `False`). -/
def integrate_weather_alerts (columns : List String) (rows : List Row)
    (alerts : List AlertProps) (now : Int) (parse : String → Option Int)
    (nowStr : String) : Option (List Row) :=
  match findCwaColumn columns with
  | none => none
  | some col =>
      if cwaColumnOk rows col then
        let codes := pipelineCodes rows col
        let matched : Except String (List MatchedAlert) :=
          if alerts.isEmpty then Except.ok []
          else match_alerts_to_cwa alerts codes now parse nowStr
        match matched with
        | Except.error _ => none
        | Except.ok ms =>
            if ms.isEmpty then
              some (rows.map fun r => sanitizeRow (r ++ emptyDerivedCells))
            else
              some ((mergeAndAggregate rows col ms).map fun e =>
                sanitizeRow (e.cells ++ mergedDerivedCells e))
      else none

/-- Outcome of the HTTP GET issued by `fetch_nws_alerts`: a response with a
status code and (for 200) a decoded feature list, or a raised transport
error. -/
inductive HttpResult where
  | response (status : Nat) (features : List AlertProps) : HttpResult
  | transportError : HttpResult
deriving DecidableEq, Repr

/-- Models `fetch_nws_alerts`: the feature list on HTTP 200, the empty list on any
other status or on a raised exception. -/
def fetch_nws_alerts : HttpResult → List AlertProps
  | HttpResult.response s fs => if s = 200 then fs else []
  | HttpResult.transportError => []

/-- The fetch did not succeed: non-200 status or transport failure. -/
def fetchFails : HttpResult → Prop
  | HttpResult.response s _ => s ≠ 200
  | HttpResult.transportError => True

/-- The `to_csv` rendering of one cell: missing → empty field, booleans →
`True`/`False`, numbers → digits. -/
def csvCell : Cell → String
  | Cell.null => ""
  | Cell.pynone => ""
  | Cell.str s => s
  | Cell.boolv b => if b then "True" else "False"
  | Cell.num n => toString n

/-- The `to_csv` rendering of a row (column name, field text). -/
def csvRow (r : Row) : List (String × String) :=
  r.map fun pc => (pc.1, csvCell pc.2)

/-! ## Helper lemmas -/

/-- If some segment of the list satisfies the strategy-1 test, the scan
succeeds. -/
theorem s1find_isSome {codes : List String} {parts : List String}
    {part : String} (hmem : part ∈ parts) (hlen : part.length = 3)
    (hin : upperStr part ∈ codes) :
    ∃ c, s1find codes parts = some c := by
  induction parts with
  | nil => cases hmem
  | cons q qs ih =>
      by_cases hq : q.length = 3 ∧ upperStr q ∈ codes
      · exact ⟨upperStr q, by simp [s1find, hq.1, hq.2]⟩
      · cases hmem with
        | head => exact absurd ⟨hlen, hin⟩ hq
        | tail _ hmem' =>
            obtain ⟨c, hc⟩ := ih hmem'
            exact ⟨c, by simp [s1find, hq, hc]⟩

/-- The strategy-1 scan depends on the code set only through membership. -/
theorem s1find_congr {L L' : List String}
    (h : ∀ s : String, s ∈ L ↔ s ∈ L') (parts : List String) :
    s1find L parts = s1find L' parts := by
  induction parts with
  | nil => rfl
  | cons q qs ih => simp [s1find, h (upperStr q), ih]

/-- Strategy 1 depends on the code set only through membership. -/
theorem strategy1_congr {L L' : List String}
    (h : ∀ s : String, s ∈ L ↔ s ∈ L') (id : String) :
    strategy1 id L = strategy1 id L' := by
  unfold strategy1
  by_cases hid : id = "" <;> simp [hid, s1find_congr h]

/-- The strategy-2 scan depends on the code set only through membership. -/
theorem s2scan_congr {L L' : List String}
    (h : ∀ s : String, s ∈ L ↔ s ∈ L') (zs : List String) :
    s2scan L zs = s2scan L' zs := by
  induction zs with
  | nil => rfl
  | cons u us ih =>
      unfold s2scan
      cases zoneExtract u with
      | none => exact ih
      | some z => simp [h z, ih]

/-- Strategy 2 depends on the code set only through membership. -/
theorem strategy2_congr {L L' : List String}
    (h : ∀ s : String, s ∈ L ↔ s ∈ L') (zones : Option (List String)) :
    strategy2 zones L = strategy2 zones L' := by
  cases zones with
  | none => rfl
  | some zs => exact s2scan_congr h zs

/-- The candidate scan of strategy 3 depends on the code set only through
membership. -/
theorem firstValid_congr {L L' : List String}
    (h : ∀ s : String, s ∈ L ↔ s ∈ L') (cwas : List String) :
    firstValid L cwas = firstValid L' cwas := by
  induction cwas with
  | nil => rfl
  | cons c cs ih => simp [firstValid, h c, ih]

/-- The state scan of strategy 3 depends on the code set only through
membership. -/
theorem s3states_congr {L L' : List String}
    (h : ∀ s : String, s ∈ L ↔ s ∈ L') (areaU : List Char)
    (tbl : List (String × List String)) :
    s3states L areaU tbl = s3states L' areaU tbl := by
  induction tbl with
  | nil => rfl
  | cons e rest ih =>
      unfold s3states
      rw [firstValid_congr h]
      cases firstValid L' e.2 <;> simp [ih]

/-- Strategy 3 depends on the code set only through membership. -/
theorem strategy3_congr {L L' : List String}
    (h : ∀ s : String, s ∈ L ↔ s ∈ L') (ad : AreaDesc) :
    strategy3 ad L = strategy3 ad L' := by
  cases ad with
  | list l => rfl
  | str s => simpa [strategy3] using s3states_congr h (upperStr s).data state_cwa_mapping

/-! ## Claim theorems: the office matcher -/

/-- C4: the four matching strategies are tried in strict order with the
first success winning; in particular an alert whose identifier contains a
3-character `-`-separated segment whose uppercase form is a valid code is
assigned through the identifier strategy with method label "alert_id"
(regardless of what the area description or any other field would match,
so in particular not "text_content"). -/
theorem strategy_order_alert_id_first (p : AlertProps) (codes : List String)
    (part : String) (hmem : part ∈ splitChar '-' p.id)
    (hlen : part.length = 3) (hin : upperStr part ∈ codes) :
    ∃ c, matchOffice p codes = Except.ok (some (c, "alert_id")) := by
  have hid : p.id ≠ "" := by
    intro h
    rw [h] at hmem
    have : part = "" := by simpa [splitChar, splitCharAux] using hmem
    rw [this] at hlen
    simp at hlen
  obtain ⟨c, hc⟩ := s1find_isSome hmem hlen hin
  have hs1 : strategy1 p.id codes = some c := by simp [strategy1, hid, hc]
  exact ⟨c, by simp [matchOffice, hs1]⟩

/-- Witness for `strategy_order_alert_id_first`: the identifier segment
"lox" matches valid code "LOX" even though the headline would textually
match "MTR". -/
theorem strategy_order_alert_id_first_witness :
    ∃ c, matchOffice
      { id := "XX-lox-1", event := "", severity := "", urgency := "",
        certainty := "", status := "", headline := "GO MTR NOW",
        description := "", instruction := "", areaDesc := AreaDesc.str "",
        effective := none, expires := none, messageType := "",
        affectedZones := none }
      ["MTR", "LOX"] = Except.ok (some (c, "alert_id")) :=
  strategy_order_alert_id_first _ ["MTR", "LOX"] "lox" (by decide) (by decide)
    (by decide)

/-- C5: for an alert with status "Actual", an absent (falsy) `effective` or
`expires` field makes `is_alert_active` return true (fail-open), while two
present fields of which at least one fails to parse make it return false —
the parse failure is absorbed locally (`is_alert_active` returns a value
rather than an error). -/
theorem isActive_fail_open_vs_malformed (parse : String → Option Int)
    (now : Int) :
    (∀ eff exp : Option String, eff = none ∨ exp = none →
        is_alert_active "Actual" eff exp now parse = true) ∧
    (∀ e x : String, e ≠ "" → x ≠ "" →
        parse e = none ∨ parse x = none →
        is_alert_active "Actual" (some e) (some x) now parse = false) := by
  constructor
  · intro eff exp h
    have hf : (truthy eff && truthy exp) = false := by
      cases h with
      | inl h => rw [h]; rfl
      | inr h => rw [h]; simp [truthy]
    simp [is_alert_active, hf]
  · intro e x he hx hp
    have ht : (truthy (some e) && truthy (some x)) = true := by
      simp [truthy, he, hx]
    cases hpe : parse e with
    | none => simp [is_alert_active, ht, hpe]
    | some te =>
        cases hpx : parse x with
        | none => simp [is_alert_active, ht, hpe, hpx]
        | some tx =>
            cases hp with
            | inl h => rw [h] at hpe; cases hpe
            | inr h => rw [h] at hpx; cases hpx

/-- Witness for `isActive_fail_open_vs_malformed` at concrete inputs:
a missing `expires` is fail-open true; an unparseable `effective` is false. -/
theorem isActive_fail_open_vs_malformed_witness :
    is_alert_active "Actual" (some "2024-01-01T00:00:00") none 0
        (fun _ => none) = true ∧
    is_alert_active "Actual" (some "garbage") (some "2024-01-01T00:00:00") 0
        (fun _ => none) = false := by
  constructor
  · exact (isActive_fail_open_vs_malformed (fun _ => none) 0).1
      (some "2024-01-01T00:00:00") none (Or.inr rfl)
  · exact (isActive_fail_open_vs_malformed (fun _ => none) 0).2
      "garbage" "2024-01-01T00:00:00" (by decide) (by decide) (Or.inl rfl)

/-- C6: for status "Actual" with both timestamps present and parseable,
`is_alert_active` is true exactly when `effective ≤ now ≤ expires`, both
bounds inclusive. -/
theorem isActive_inclusive_bounds (parse : String → Option Int) (now : Int)
    (e x : String) (te tx : Int) (hne : e ≠ "") (hnx : x ≠ "")
    (he : parse e = some te) (hx : parse x = some tx) :
    is_alert_active "Actual" (some e) (some x) now parse = true ↔
      (te ≤ now ∧ now ≤ tx) := by
  have ht : (truthy (some e) && truthy (some x)) = true := by
    simp [truthy, hne, hnx]
  simp [is_alert_active, ht, he, hx]

/-- Witness for `isActive_inclusive_bounds`: effective one hour before and
expires one hour after `now` give true, and both bounds are inclusive. -/
theorem isActive_inclusive_bounds_witness :
    is_alert_active "Actual" (some "T-1h") (some "T+1h") 0
      (fun s => if s = "T-1h" then some (-3600) else
                if s = "T+1h" then some 3600 else none) = true := by
  exact (isActive_inclusive_bounds _ 0 "T-1h" "T+1h" (-3600) 3600
    (by decide) (by decide) rfl rfl).mpr (by norm_num)

/-- Concrete alert refuting C3's order independence: nothing for strategies
1–3, and a headline containing both " LOX " and " MTR ". -/
def c3alert : AlertProps :=
  { id := "", event := "", severity := "", urgency := "", certainty := "",
    status := "", headline := "AAA LOX AND MTR ZONE", description := "",
    instruction := "", areaDesc := AreaDesc.str "", effective := none,
    expires := none, messageType := "", affectedZones := none }

/-- C3 counterexample: the same alert matched against the same valid-code
set presented in two iteration orders is assigned two different office
codes by the text-content strategy, so the match result does depend on the
iteration order of the code set. -/
theorem matcher_order_dependent_cex :
    matchOffice c3alert ["LOX", "MTR"] =
        Except.ok (some ("LOX", "text_content")) ∧
    matchOffice c3alert ["MTR", "LOX"] =
        Except.ok (some ("MTR", "text_content")) ∧
    (["LOX", "MTR"] : List String).Perm ["MTR", "LOX"] ∧
    (("LOX", "text_content") : String × String) ≠ ("MTR", "text_content") :=
  ⟨rfl, rfl, List.Perm.swap "MTR" "LOX" [], by decide⟩

/-- C3 amended: the matcher is a pure function of the alert and the
ordered valid-code list (it reads no external state — in this embedding it
takes no other argument), and whenever the assigned method label is not
"text_content" (strategies 1–3), the assigned office and label are
independent of the iteration order: any permutation of the code list gives
the identical result.  Only the text-content strategy's choice depends on
the order. -/
theorem matchOffice_perm_independent (p : AlertProps) {L L' : List String}
    (hp : L.Perm L') (c m : String)
    (hm : matchOffice p L = Except.ok (some (c, m)))
    (hnm : m ≠ "text_content") :
    matchOffice p L' = Except.ok (some (c, m)) := by
  have h : ∀ s : String, s ∈ L ↔ s ∈ L' := fun s => hp.mem_iff
  unfold matchOffice at hm ⊢
  rw [← strategy1_congr h, ← strategy2_congr h, ← strategy3_congr h]
  cases e1 : strategy1 p.id L with
  | some a => simp only [e1] at hm ⊢; exact hm
  | none =>
      simp only [e1] at hm ⊢
      cases e2 : strategy2 p.affectedZones L with
      | some a => simp only [e2] at hm ⊢; exact hm
      | none =>
          simp only [e2] at hm ⊢
          cases e3 : strategy3 p.areaDesc L with
          | error err => simp [e3] at hm
          | ok o =>
              cases o with
              | some a => simp only [e3] at hm ⊢; exact hm
              | none =>
                  simp only [e3] at hm ⊢
                  cases e4 : strategy4 p.headline p.description p.instruction L with
                  | some a =>
                      simp only [e4] at hm
                      rw [Except.ok.injEq, Option.some.injEq, Prod.mk.injEq] at hm
                      exact absurd hm.2.symm hnm
                  | none => simp [e4] at hm

/-- Witness for `matchOffice_perm_independent`: an identifier-matched alert
keeps its assignment under a reordering of the code list. -/
theorem matchOffice_perm_independent_witness :
    matchOffice
      { id := "XX-lox-1", event := "", severity := "", urgency := "",
        certainty := "", status := "", headline := "GO MTR NOW",
        description := "", instruction := "", areaDesc := AreaDesc.str "",
        effective := none, expires := none, messageType := "",
        affectedZones := none }
      ["MTR", "LOX"] = Except.ok (some ("LOX", "alert_id")) :=
  matchOffice_perm_independent _ (List.Perm.swap "MTR" "LOX" [])
    "LOX" "alert_id" rfl (by decide)

/-! ## Claim theorems: error propagation -/

/-- An alert whose `areaDesc` is a list and which strategies 1 and 2 do not
match makes `processAlert` raise (strategy 3 calls `.upper()` on a list). -/
theorem processAlert_list_error (p : AlertProps) (codes : List String)
    (now : Int) (parse : String → Option Int) (nowStr : String)
    (l : List String) (hl : p.areaDesc = AreaDesc.list l)
    (h1 : strategy1 p.id codes = none)
    (h2 : strategy2 p.affectedZones codes = none) :
    ∃ msg, processAlert p codes now parse nowStr = Except.error msg := by
  refine ⟨"AttributeError: list has no upper", ?_⟩
  simp [processAlert, matchOffice, h1, h2, hl, strategy3]

/-- An exception for any alert of the feed aborts the whole matcher loop. -/
theorem match_alerts_error_of_mem {alerts : List AlertProps}
    {codes : List String} {now : Int} {parse : String → Option Int}
    {nowStr : String} {p : AlertProps} (hp : p ∈ alerts)
    (he : ∃ msg, processAlert p codes now parse nowStr = Except.error msg) :
    ∃ msg, match_alerts_to_cwa alerts codes now parse nowStr =
      Except.error msg := by
  induction alerts with
  | nil => cases hp
  | cons a rest ih =>
      cases hpa : processAlert a codes now parse nowStr with
      | error e => exact ⟨e, by simp [match_alerts_to_cwa, hpa]⟩
      | ok m =>
          cases hp with
          | head =>
              obtain ⟨msg, hmsg⟩ := he
              simp [hmsg] at hpa
          | tail _ hp' =>
              obtain ⟨msg, hmsg⟩ := ih hp'
              refine ⟨msg, ?_⟩
              simp [match_alerts_to_cwa, hpa, hmsg]

/-- C9: a feed containing an alert whose `areaDesc` is a list (a shape the
feed permits) that strategies 1 and 2 do not match makes strategy 3 raise;
the error propagates out of `match_alerts_to_cwa`, and the whole enrichment
run returns failure instead of dropping the alert. -/
theorem list_areaDesc_aborts_run (columns : List String) (rows : List Row)
    (alerts : List AlertProps) (now : Int) (parse : String → Option Int)
    (nowStr : String) (col : String) (hc : findCwaColumn columns = some col)
    (p : AlertProps) (hp : p ∈ alerts) (l : List String)
    (hl : p.areaDesc = AreaDesc.list l)
    (h1 : strategy1 p.id (pipelineCodes rows col) = none)
    (h2 : strategy2 p.affectedZones (pipelineCodes rows col) = none) :
    (∃ msg, match_alerts_to_cwa alerts (pipelineCodes rows col) now parse
        nowStr = Except.error msg) ∧
    integrate_weather_alerts columns rows alerts now parse nowStr = none := by
  have herr := match_alerts_error_of_mem hp
    (processAlert_list_error p (pipelineCodes rows col) now parse nowStr l hl h1 h2)
  refine ⟨herr, ?_⟩
  obtain ⟨msg, hmsg⟩ := herr
  have hne : alerts.isEmpty = false := by
    cases alerts with
    | nil => cases hp
    | cons a rest => rfl
  simp [integrate_weather_alerts, hc, hne, hmsg]

/-- Concrete alert with a list-valued `areaDesc` for the C9 witness. -/
def c9alert : AlertProps :=
  { id := "X", event := "", severity := "", urgency := "", certainty := "",
    status := "", headline := "", description := "", instruction := "",
    areaDesc := AreaDesc.list ["Ventura County"], effective := none,
    expires := none, messageType := "", affectedZones := none }

/-- Witness for `list_areaDesc_aborts_run` at a concrete feed and table. -/
theorem list_areaDesc_aborts_run_witness :
    integrate_weather_alerts ["CWA"] [[("CWA", Cell.str "LOX")]] [c9alert]
      0 (fun _ => none) "T" = none :=
  (list_areaDesc_aborts_run ["CWA"] [[("CWA", Cell.str "LOX")]] [c9alert] 0
    (fun _ => none) "T" "CWA" rfl c9alert (List.mem_singleton.mpr rfl)
    ["Ventura County"] rfl rfl rfl).2

/-! ## Claim theorems: the enrichment engine -/

/-- C10: in every enhanced row, `has_active_alerts` equals that same row's
`alert_active` value — a per-row copy of the row's own active flag, false
when the row joined no alert — and the no-match branch likewise sets both
columns to false; it is not a per-office aggregate. -/
theorem has_active_alerts_is_per_row_copy (rows : List Row) (col : String)
    (ms : List MatchedAlert) :
    (∀ e ∈ mergeAndAggregate rows col ms,
        e.has_active_alerts = e.alert_active ∧
        (e.alert = none → e.alert_active = false)) ∧
    getCell emptyDerivedCells "has_active_alerts" = Cell.boolv false ∧
    getCell emptyDerivedCells "alert_active" = Cell.boolv false := by
  refine ⟨?_, rfl, rfl⟩
  intro e he
  simp only [mergeAndAggregate, List.mem_map] at he
  obtain ⟨p, hp, rfl⟩ := he
  refine ⟨rfl, ?_⟩
  intro ha
  simp only at ha
  simp [ha]

/-- The single enhanced row of the C10 witness run (one input row, no
matched alerts for it). -/
def c10row : EnrichedRow :=
  { cells := [("CWA", Cell.str "LOX")], alert := none, alert_active := false,
    has_active_alerts := false, alert_count := 0, max_severity_score := 0 }

/-- Witness for `has_active_alerts_is_per_row_copy` at a concrete run. -/
theorem has_active_alerts_is_per_row_copy_witness :
    c10row.has_active_alerts = c10row.alert_active ∧
    (c10row.alert = none → c10row.alert_active = false) :=
  (has_active_alerts_is_per_row_copy [[("CWA", Cell.str "LOX")]] "CWA" []).1
    c10row (by decide)

/-- A row's office value is the string `w` exactly when its office cell is
the string cell `w`. -/
theorem cwaValue_eq_some {r : Row} {col : String} {w : String} :
    cwaValue r col = some w ↔ getCell r col = Cell.str w := by
  unfold cwaValue cellStr?
  cases getCell r col <;> simp

/-- C2 amended: the valid-code set and the matched alerts carry uppercased
office codes, but the left join compares the input row's office value with
the alert's `cwa_office` as exact values — case-sensitively: a row receives
a matched alert's attributes precisely when its office cell equals the
alert's (uppercased) office code character for character.  A row whose
value differs only in case joins nothing and keeps null alert fields. -/
theorem join_is_case_sensitive (rows : List Row) (col : String)
    (ms : List MatchedAlert) (r : Row) (a : MatchedAlert)
    (hr : r ∈ rows) (ha : a ∈ ms) :
    (r, some a) ∈ mergePairs rows col ms ↔
      getCell r col = Cell.str a.cwa_office := by
  constructor
  · intro h
    rw [mergePairs, List.mem_flatMap] at h
    obtain ⟨r', hr', hb⟩ := h
    unfold mergeBlock at hb
    cases hv : cwaValue r' col with
    | none => rw [hv] at hb; simp at hb
    | some v =>
        rw [hv] at hb
        dsimp only at hb
        by_cases he : (ms.filter (fun x => x.cwa_office == v)).isEmpty = true
        · rw [if_pos he] at hb; simp at hb
        · rw [if_neg he] at hb
          rw [List.mem_map] at hb
          obtain ⟨a', ha', heq⟩ := hb
          have heq1 : r' = r := congrArg Prod.fst heq
          have heq2 : a' = a := by simpa using congrArg Prod.snd heq
          have hoff : a.cwa_office = v := by
            rw [← heq2]
            have := (List.mem_filter.mp ha').2
            simpa [beq_iff_eq] using this
          rw [hoff]
          rw [heq1] at hv
          exact cwaValue_eq_some.mp hv
  · intro h
    rw [mergePairs, List.mem_flatMap]
    refine ⟨r, hr, ?_⟩
    unfold mergeBlock
    rw [cwaValue_eq_some.mpr h]
    dsimp only
    have hmem : a ∈ ms.filter (fun x => x.cwa_office == a.cwa_office) :=
      List.mem_filter.mpr ⟨ha, by simp⟩
    have hne : ¬ (ms.filter (fun x => x.cwa_office == a.cwa_office)).isEmpty = true := by
      intro hemp
      rw [List.isEmpty_iff] at hemp
      rw [hemp] at hmem
      cases hmem
    rw [if_neg hne]
    exact List.mem_map.mpr ⟨a, hmem, rfl⟩

/-- Witness for `join_is_case_sensitive`: a row whose office cell is
exactly the uppercased code "LOX" does join the matched alert. -/
theorem join_is_case_sensitive_witness :
    ([("CWA", Cell.str "LOX")],
      some { cwa_office := "LOX", alert_id := some "X-LOX-1",
             event_type := none, severity := none, urgency := none,
             certainty := none, status := none, headline := none,
             description := none, areas_affected := none,
             effective_time := none, expires_time := none,
             message_type := none, alert_active := false,
             severity_score := 0, last_updated := "T",
             matching_method := "alert_id" }) ∈
      mergePairs [[("CWA", Cell.str "LOX")]] "CWA"
        [{ cwa_office := "LOX", alert_id := some "X-LOX-1",
           event_type := none, severity := none, urgency := none,
           certainty := none, status := none, headline := none,
           description := none, areas_affected := none,
           effective_time := none, expires_time := none,
           message_type := none, alert_active := false,
           severity_score := 0, last_updated := "T",
           matching_method := "alert_id" }] :=
  (join_is_case_sensitive [[("CWA", Cell.str "LOX")]] "CWA" _ _ _
    (by decide) (List.mem_singleton.mpr rfl)).mpr rfl

/-- The alert of the C2 counterexample: its identifier segment "LOX"
matches the (uppercased) valid code derived from the input value "lox". -/
def c2alert : AlertProps :=
  { id := "X-LOX-1", event := "", severity := "Severe", urgency := "",
    certainty := "", status := "", headline := "", description := "",
    instruction := "", areaDesc := AreaDesc.str "", effective := none,
    expires := none, messageType := "", affectedZones := none }

/-- C2 counterexample: the input row's office value "lox" differs only in
case from the office code "LOX" assigned to a matched alert, yet the left
join attaches nothing to the row — its output row keeps a null
`cwa_office` and zero `alert_count`. -/
theorem join_case_insensitivity_cex :
    (match_alerts_to_cwa [c2alert] (pipelineCodes [[("CWA", Cell.str "lox")]]
        "CWA") 0 (fun _ => none) "T").toOption.map
        (List.map (fun a => a.cwa_office)) = some ["LOX"] ∧
    upperStr "lox" = "LOX" ∧
    (integrate_weather_alerts ["CWA"] [[("CWA", Cell.str "lox")]] [c2alert] 0
        (fun _ => none) "T").map (List.map (fun r => colOf r "cwa_office")) =
      some [some Cell.null] ∧
    (integrate_weather_alerts ["CWA"] [[("CWA", Cell.str "lox")]] [c2alert] 0
        (fun _ => none) "T").map (List.map (fun r => colOf r "alert_count")) =
      some [some (Cell.num 0)] :=
  ⟨rfl, rfl, rfl, rfl⟩

/-- C8 amended: `alert_count` and `max_severity_score` are identical across
all output rows whose office-column cells are equal as exact values — the
`groupby` key is the raw cell, so office codes differing only in letter
case fall into different groups and need not agree. -/
theorem aggregates_constant_per_exact_key (rows : List Row) (col : String)
    (ms : List MatchedAlert) (e₁ e₂ : EnrichedRow)
    (h₁ : e₁ ∈ mergeAndAggregate rows col ms)
    (h₂ : e₂ ∈ mergeAndAggregate rows col ms)
    (hkey : getCell e₁.cells col = getCell e₂.cells col) :
    e₁.alert_count = e₂.alert_count ∧
    e₁.max_severity_score = e₂.max_severity_score := by
  simp only [mergeAndAggregate, List.mem_map] at h₁ h₂
  obtain ⟨p₁, hp₁, rfl⟩ := h₁
  obtain ⟨p₂, hp₂, rfl⟩ := h₂
  simp only at hkey ⊢
  unfold rowKey
  rw [hkey]
  exact ⟨rfl, rfl⟩

/-- The matched alert joined in the C8 witness run. -/
def c8m : MatchedAlert :=
  { cwa_office := "LOX", alert_id := some "X-LOX-1", event_type := none,
    severity := some "Severe", urgency := none, certainty := none,
    status := none, headline := none, description := none,
    areas_affected := none, effective_time := none, expires_time := none,
    message_type := none, alert_active := false, severity_score := 3,
    last_updated := "T", matching_method := "alert_id" }

/-- The input rows of the C8 witness run: two rows with the identical
office value. -/
def c8rows : List Row :=
  [[("Name", Cell.str "A"), ("CWA", Cell.str "LOX")],
   [("Name", Cell.str "B"), ("CWA", Cell.str "LOX")]]

/-- First output row of the C8 witness run. -/
def c8e1 : EnrichedRow :=
  { cells := [("Name", Cell.str "A"), ("CWA", Cell.str "LOX")],
    alert := some c8m, alert_active := false, has_active_alerts := false,
    alert_count := 2, max_severity_score := 3 }

/-- Second output row of the C8 witness run. -/
def c8e2 : EnrichedRow :=
  { cells := [("Name", Cell.str "B"), ("CWA", Cell.str "LOX")],
    alert := some c8m, alert_active := false, has_active_alerts := false,
    alert_count := 2, max_severity_score := 3 }

/-- Witness for `aggregates_constant_per_exact_key` at a concrete run. -/
theorem aggregates_constant_per_exact_key_witness :
    c8e1.alert_count = c8e2.alert_count ∧
    c8e1.max_severity_score = c8e2.max_severity_score :=
  aggregates_constant_per_exact_key c8rows "CWA" [c8m] c8e1 c8e2
    (by decide) (by decide) (by decide)

/-- The alert of the C8 counterexample. -/
def c8alert : AlertProps :=
  { id := "X-LOX-1", event := "", severity := "Severe", urgency := "",
    certainty := "", status := "", headline := "", description := "",
    instruction := "", areaDesc := AreaDesc.str "", effective := none,
    expires := none, messageType := "", affectedZones := none }

/-- C8 counterexample: two output rows whose office codes differ only in
letter case ("LOX" and "lox") carry different `alert_count` and
`max_severity_score` values (1/3 versus 0/0), because the group key is the
raw cell value. -/
theorem aggregates_case_insensitive_cex :
    (integrate_weather_alerts ["CWA"]
        [[("CWA", Cell.str "LOX")], [("CWA", Cell.str "lox")]] [c8alert] 0
        (fun _ => none) "T").map
      (List.map (fun r =>
        (colOf r "CWA", colOf r "alert_count", colOf r "max_severity_score"))) =
      some [(some (Cell.str "LOX"), some (Cell.num 1), some (Cell.num 3)),
            (some (Cell.str "lox"), some (Cell.num 0), some (Cell.num 0))] ∧
    upperStr "lox" = upperStr "LOX" :=
  ⟨rfl, rfl⟩

/-- The count `countIds` distributes over concatenation of merged-pair lists. -/
theorem countIds_append (xs ys : List (Row × Option MatchedAlert)) (k : Cell)
    (col : String) :
    countIds (xs ++ ys) k col = countIds xs k col + countIds ys k col := by
  unfold countIds
  rw [List.filter_append, List.length_append]

/-- A pair carrying no alert contributes nothing to `countIds`. -/
theorem countIds_single_none (r : Row) (k : Cell) (col : String) :
    countIds [(r, none)] k col = 0 := by
  simp [countIds]

/-- The office cell is not the string `v` when the office value is a
different string `w`. -/
theorem getCell_ne_str {r : Row} {col : String} {w v : String}
    (hv : cwaValue r col = some w) (hw : w ≠ v) :
    getCell r col ≠ Cell.str v := by
  rw [cwaValue_eq_some.mp hv]
  intro h
  injection h with h2
  exact hw h2

/-- Contribution of one input row's merge block to the group count of
office string `v`: the full per-office non-null-id alert count if the row's
office cell is exactly `Cell.str v`, nothing otherwise. -/
theorem countIds_block (r : Row) (col : String) (ms : List MatchedAlert)
    (v : String) :
    countIds (mergeBlock col ms r) (Cell.str v) col =
      if getCell r col = Cell.str v then
        (ms.filter (fun a => a.cwa_office == v)).countP
          (fun a => a.alert_id.isSome)
      else 0 := by
  unfold mergeBlock
  cases hv : cwaValue r col with
  | none =>
      have hne : getCell r col ≠ Cell.str v := by
        intro h
        have h2 := cwaValue_eq_some.mpr h
        rw [hv] at h2
        cases h2
      rw [if_neg hne]
      exact countIds_single_none r (Cell.str v) col
  | some w =>
      dsimp only
      by_cases hw : w = v
      · subst hw
        have hg : getCell r col = Cell.str w := cwaValue_eq_some.mp hv
        rw [if_pos hg]
        by_cases he : (ms.filter (fun a => a.cwa_office == w)).isEmpty = true
        · rw [if_pos he, countIds_single_none]
          rw [List.isEmpty_iff] at he
          rw [he]
          rfl
        · rw [if_neg he]
          unfold countIds
          rw [List.filter_map, List.length_map, List.countP_eq_length_filter]
          congr 1
          apply List.filter_congr
          intro a _
          simp [Function.comp, hg]
      · have hne : getCell r col ≠ Cell.str v := getCell_ne_str hv hw
        rw [if_neg hne]
        by_cases he : (ms.filter (fun a => a.cwa_office == w)).isEmpty = true
        · rw [if_pos he]
          exact countIds_single_none r (Cell.str v) col
        · rw [if_neg he]
          unfold countIds
          rw [List.filter_map, List.length_map]
          have hfalse : ∀ a ∈ ms.filter (fun a => a.cwa_office == w),
              ¬ (((fun p : Row × Option MatchedAlert =>
                getCell p.1 col == Cell.str v &&
                  (p.2.bind (fun a => a.alert_id)).isSome) ∘
                (fun a => (r, some a))) a = true) := by
            intro a _
            simp [Function.comp]
            intro h
            exact absurd h hne
          rw [List.filter_eq_nil_iff.mpr hfalse]
          rfl

/-- The group count of office string `v` over the whole merge: number of
input rows whose office cell is exactly `Cell.str v`, times the number of
matched alerts for `v` carrying a non-null alert id. -/
theorem countIds_mergePairs (rows : List Row) (col : String)
    (ms : List MatchedAlert) (v : String) :
    countIds (mergePairs rows col ms) (Cell.str v) col =
      rows.countP (fun r => getCell r col == Cell.str v) *
        (ms.filter (fun a => a.cwa_office == v)).countP
          (fun a => a.alert_id.isSome) := by
  induction rows with
  | nil => simp [mergePairs, countIds]
  | cons r rest ih =>
      have hc : mergePairs (r :: rest) col ms =
          mergeBlock col ms r ++ mergePairs rest col ms := by
        unfold mergePairs
        rw [List.flatMap_cons]
      rw [hc, countIds_append, countIds_block, ih, List.countP_cons]
      by_cases hr : getCell r col = Cell.str v
      · rw [if_pos hr]
        simp only [hr, beq_self_eq_true, if_pos]
        ring
      · rw [if_neg hr]
        have hb : (getCell r col == Cell.str v) = false := by
          simp [hr]
        rw [hb]
        simp

/-- The maximum `natMax` of a concatenation is the max of the two `natMax`es. -/
theorem natMax_append (l₁ l₂ : List Nat) :
    natMax (l₁ ++ l₂) = max (natMax l₁) (natMax l₂) := by
  induction l₁ with
  | nil => simp [natMax]
  | cons x xs ih =>
      show max x (natMax (xs ++ l₂)) = max (max x (natMax xs)) (natMax l₂)
      rw [ih, Nat.max_assoc]

/-- The group maximum `maxSev` distributes over concatenation of merged-pair lists. -/
theorem maxSev_append (xs ys : List (Row × Option MatchedAlert)) (k : Cell)
    (col : String) :
    maxSev (xs ++ ys) k col = max (maxSev xs k col) (maxSev ys k col) := by
  unfold maxSev
  rw [List.filterMap_append, natMax_append]

/-- A pair carrying no alert contributes nothing to `maxSev`. -/
theorem maxSev_single_none (r : Row) (k : Cell) (col : String) :
    maxSev [(r, none)] k col = 0 := by
  unfold maxSev
  have h : (fun p : Row × Option MatchedAlert =>
      if getCell p.1 col == k then p.2.map (fun a => a.severity_score)
      else none) (r, none) = none := by
    by_cases hk : (getCell r col == k) = true <;> simp [hk]
  simp [h, natMax]

/-- Contribution of one input row's merge block to the group max of office
string `v`: the per-office severity maximum if the row's office cell is
exactly `Cell.str v`, zero otherwise. -/
theorem maxSev_block (r : Row) (col : String) (ms : List MatchedAlert)
    (v : String) :
    maxSev (mergeBlock col ms r) (Cell.str v) col =
      if getCell r col = Cell.str v then
        natMax ((ms.filter (fun a => a.cwa_office == v)).map
          (fun a => a.severity_score))
      else 0 := by
  unfold mergeBlock
  cases hv : cwaValue r col with
  | none =>
      have hne : getCell r col ≠ Cell.str v := by
        intro h
        have h2 := cwaValue_eq_some.mpr h
        rw [hv] at h2
        cases h2
      rw [if_neg hne]
      exact maxSev_single_none r (Cell.str v) col
  | some w =>
      dsimp only
      by_cases hw : w = v
      · subst hw
        have hg : getCell r col = Cell.str w := cwaValue_eq_some.mp hv
        rw [if_pos hg]
        by_cases he : (ms.filter (fun a => a.cwa_office == w)).isEmpty = true
        · rw [if_pos he, maxSev_single_none]
          rw [List.isEmpty_iff] at he
          rw [he]
          rfl
        · rw [if_neg he]
          unfold maxSev
          rw [List.filterMap_map]
          congr 1
          rw [List.filterMap_eq_map_iff_forall_eq_some.mpr ?_]
          intro a _
          simp [Function.comp, hg]
      · have hne : getCell r col ≠ Cell.str v := getCell_ne_str hv hw
        rw [if_neg hne]
        by_cases he : (ms.filter (fun a => a.cwa_office == w)).isEmpty = true
        · rw [if_pos he]
          exact maxSev_single_none r (Cell.str v) col
        · rw [if_neg he]
          unfold maxSev
          rw [List.filterMap_map]
          have hnil : List.filterMap
              ((fun p : Row × Option MatchedAlert =>
                if getCell p.1 col == Cell.str v then
                  p.2.map (fun a => a.severity_score)
                else none) ∘ (fun a => (r, some a)))
              (ms.filter (fun a => a.cwa_office == w)) = [] := by
            apply List.filterMap_eq_nil_iff.mpr
            intro a _
            have hb : (getCell r col == Cell.str v) = false := by
              simp [hne]
            simp [Function.comp, hb]
          rw [hnil]
          rfl

/-- The group max over any merge never exceeds the per-office severity
maximum. -/
theorem maxSev_mergePairs_le (rows : List Row) (col : String)
    (ms : List MatchedAlert) (v : String) :
    maxSev (mergePairs rows col ms) (Cell.str v) col ≤
      natMax ((ms.filter (fun a => a.cwa_office == v)).map
        (fun a => a.severity_score)) := by
  induction rows with
  | nil => exact Nat.zero_le _
  | cons r rest ih =>
      have hc : mergePairs (r :: rest) col ms =
          mergeBlock col ms r ++ mergePairs rest col ms := by
        unfold mergePairs
        rw [List.flatMap_cons]
      rw [hc, maxSev_append, maxSev_block]
      apply Nat.max_le.mpr
      refine ⟨?_, ih⟩
      by_cases hr : getCell r col = Cell.str v
      · rw [if_pos hr]
      · rw [if_neg hr]
        exact Nat.zero_le _

/-- The group max of office string `v` over the whole merge: as soon as one
input row carries the office cell `Cell.str v`, it equals the maximum
severity score of the matched alerts for `v` (zero when there are none). -/
theorem maxSev_mergePairs (rows : List Row) (col : String)
    (ms : List MatchedAlert) (v : String)
    (hex : ∃ r ∈ rows, getCell r col = Cell.str v) :
    maxSev (mergePairs rows col ms) (Cell.str v) col =
      natMax ((ms.filter (fun a => a.cwa_office == v)).map
        (fun a => a.severity_score)) := by
  induction rows with
  | nil =>
      obtain ⟨r, hr, _⟩ := hex
      cases hr
  | cons r rest ih =>
      have hc : mergePairs (r :: rest) col ms =
          mergeBlock col ms r ++ mergePairs rest col ms := by
        unfold mergePairs
        rw [List.flatMap_cons]
      rw [hc, maxSev_append, maxSev_block]
      by_cases hr : getCell r col = Cell.str v
      · rw [if_pos hr]
        exact Nat.max_eq_left (maxSev_mergePairs_le rest col ms v)
      · rw [if_neg hr]
        rw [Nat.zero_max]
        apply ih
        obtain ⟨r', hr', hv⟩ := hex
        cases hr' with
        | head => exact absurd hv hr
        | tail _ h => exact ⟨r', h, hv⟩

/-- The input row of any merged pair is a row of the input table. -/
theorem mergePairs_fst_mem {rows : List Row} {col : String}
    {ms : List MatchedAlert} {p : Row × Option MatchedAlert}
    (hp : p ∈ mergePairs rows col ms) : p.1 ∈ rows := by
  rw [mergePairs, List.mem_flatMap] at hp
  obtain ⟨r, hr, hb⟩ := hp
  have hfst : p.1 = r := by
    unfold mergeBlock at hb
    cases hv : cwaValue r col with
    | none =>
        rw [hv] at hb
        rw [List.mem_singleton] at hb
        rw [hb]
    | some v =>
        rw [hv] at hb
        dsimp only at hb
        by_cases he : (ms.filter (fun a => a.cwa_office == v)).isEmpty = true
        · rw [if_pos he, List.mem_singleton] at hb
          rw [hb]
        · rw [if_neg he, List.mem_map] at hb
          obtain ⟨a, _, heq⟩ := hb
          rw [← heq]
  rw [hfst]
  exact hr

/-- C1 amended: for every output row of the merge whose office cell is the
string `v`, `max_severity_score` equals the maximum `severity_score` among
the matched alerts with office `v` (0 if none) — as the claim states; but
`alert_count` counts joined output rows, not matched alerts: it equals the
number of input rows whose office cell is exactly `Cell.str v` times the
number of matched alerts for `v` with a non-null alert id, which collapses
to the number of matched alerts only when exactly one input row carries
that office value and every matched alert has an id. -/
theorem aggregate_formulas (rows : List Row) (col : String)
    (ms : List MatchedAlert) (e : EnrichedRow)
    (he : e ∈ mergeAndAggregate rows col ms) (v : String)
    (hv : getCell e.cells col = Cell.str v) :
    e.max_severity_score =
      natMax ((ms.filter (fun a => a.cwa_office == v)).map
        (fun a => a.severity_score)) ∧
    e.alert_count =
      rows.countP (fun r => getCell r col == Cell.str v) *
        (ms.filter (fun a => a.cwa_office == v)).countP
          (fun a => a.alert_id.isSome) := by
  simp only [mergeAndAggregate, List.mem_map] at he
  obtain ⟨p, hp, rfl⟩ := he
  simp only at hv ⊢
  have hkey : rowKey col p = some (Cell.str v) := by
    unfold rowKey
    rw [hv]
  rw [hkey]
  constructor
  · apply maxSev_mergePairs
    exact ⟨p.1, mergePairs_fst_mem hp, hv⟩
  · exact countIds_mergePairs rows col ms v

/-- Input rows of the C1 witness and counterexample: two rows share the
office code "LOX". -/
def c1rows : List Row :=
  [[("CWA", Cell.str "LOX")], [("CWA", Cell.str "LOX")]]

/-- The single matched alert of the C1 witness run. -/
def c1m : MatchedAlert :=
  { cwa_office := "LOX", alert_id := some "X-LOX-1", event_type := none,
    severity := some "Severe", urgency := none, certainty := none,
    status := none, headline := none, description := none,
    areas_affected := none, effective_time := none, expires_time := none,
    message_type := none, alert_active := false, severity_score := 3,
    last_updated := "T", matching_method := "alert_id" }

/-- First output row of the C1 witness run: both input rows join the one
alert, and the group count over the merged frame is 2. -/
def c1e : EnrichedRow :=
  { cells := [("CWA", Cell.str "LOX")], alert := some c1m,
    alert_active := false, has_active_alerts := false, alert_count := 2,
    max_severity_score := 3 }

/-- Witness for `aggregate_formulas` at a concrete run. -/
theorem aggregate_formulas_witness :
    c1e.max_severity_score =
      natMax ((([c1m].filter (fun a => a.cwa_office == "LOX")).map
        (fun a => a.severity_score))) ∧
    c1e.alert_count =
      c1rows.countP (fun r => getCell r "CWA" == Cell.str "LOX") *
        ([c1m].filter (fun a => a.cwa_office == "LOX")).countP
          (fun a => a.alert_id.isSome) :=
  aggregate_formulas c1rows "CWA" [c1m] c1e (by decide) "LOX" (by decide)

/-- The alert of the C1 counterexample: matched to "LOX" through its
identifier, severity "Severe" (score 3). -/
def c1alert : AlertProps :=
  { id := "X-LOX-1", event := "", severity := "Severe", urgency := "",
    certainty := "", status := "", headline := "", description := "",
    instruction := "", areaDesc := AreaDesc.str "", effective := none,
    expires := none, messageType := "", affectedZones := none }

/-- C1 counterexample: with two input rows sharing office code "LOX" and
exactly one matched alert for "LOX", every output row reports
`alert_count = 2` — the aggregate counts joined output rows, not matched
alerts, so it differs from the number of MatchedAlerts (1) as soon as
several input rows share the office code.  (`max_severity_score` is 3 on
each row, as the claim states.) -/
theorem alert_count_counts_rows_cex :
    (match_alerts_to_cwa [c1alert] (pipelineCodes c1rows "CWA") 0
        (fun _ => none) "T").toOption.map
        (fun ms => (ms.filter (fun a => a.cwa_office == "LOX")).length) =
      some 1 ∧
    (integrate_weather_alerts ["CWA"] c1rows [c1alert] 0 (fun _ => none)
        "T").map (List.map (fun r => colOf r "alert_count")) =
      some [some (Cell.num 2), some (Cell.num 2)] ∧
    (integrate_weather_alerts ["CWA"] c1rows [c1alert] 0 (fun _ => none)
        "T").map (List.map (fun r => colOf r "max_severity_score")) =
      some [some (Cell.num 3), some (Cell.num 3)] :=
  ⟨rfl, rfl, rfl⟩

/-- C7 counterexample: a fetch failure (HTTP 503) degrades to an empty
feed and the run still succeeds, but the output is not the input plus the
documented null/false/0 defaults: the three sanitized text columns among
the twenty — `headline`, `description`, `areas_affected` — carry the
literal string "None", because `astype(str)` renders the no-match branch's
Python `None` as `'None'` and the sanitize lambda blanks only `'nan'`. -/
theorem feed_failure_none_literal_cex :
    fetch_nws_alerts (HttpResult.response 503 []) = [] ∧
    (integrate_weather_alerts ["CWA"] [[("CWA", Cell.str "LOX")]]
        (fetch_nws_alerts (HttpResult.response 503 [])) 0 (fun _ => none)
        "T").map (List.map csvRow) =
      some [[("CWA", "LOX"),
             ("cwa_office", ""), ("alert_id", ""), ("event_type", ""),
             ("severity", ""), ("urgency", ""), ("certainty", ""),
             ("status", ""), ("headline", "None"), ("description", "None"),
             ("areas_affected", "None"), ("effective_time", ""),
             ("expires_time", ""), ("message_type", ""),
             ("alert_active", "False"), ("severity_score", "0"),
             ("last_updated", ""), ("matching_method", ""),
             ("has_active_alerts", "False"), ("alert_count", "0"),
             ("max_severity_score", "0")]] ∧
    ("None" : String) ≠ "" :=
  ⟨rfl, rfl, by decide⟩

/-- C7 amended: when the alert-feed request returns a non-200 status or
raises a transport error, the fetcher yields an empty alert sequence and
the run still succeeds (provided the office column exists and holds only
strings — a non-string value makes `cwa.upper()` raise and the run fail):
the output is the input table with the twenty derived columns appended,
seventeen of them at the documented defaults (empty field, "False", "0" in
the CSV rendering), while the three sanitized text columns `headline`,
`description` and `areas_affected` serialize as the literal string "None"
(`astype(str)` of the `None` default, which the sanitize lambda keeps
since it blanks only `'nan'`). -/
theorem feed_failure_degrades_amended (r : HttpResult) (hr : fetchFails r)
    (columns : List String) (rows : List Row) (col : String)
    (hc : findCwaColumn columns = some col)
    (hok : cwaColumnOk rows col = true) (now : Int)
    (parse : String → Option Int) (nowStr : String) :
    fetch_nws_alerts r = [] ∧
    integrate_weather_alerts columns rows (fetch_nws_alerts r) now parse
        nowStr =
      some (rows.map (fun row => sanitizeRow (row ++ emptyDerivedCells))) ∧
    csvRow (sanitizeRow emptyDerivedCells) =
      [("cwa_office", ""), ("alert_id", ""), ("event_type", ""),
       ("severity", ""), ("urgency", ""), ("certainty", ""), ("status", ""),
       ("headline", "None"), ("description", "None"),
       ("areas_affected", "None"),
       ("effective_time", ""), ("expires_time", ""), ("message_type", ""),
       ("alert_active", "False"), ("severity_score", "0"),
       ("last_updated", ""), ("matching_method", ""),
       ("has_active_alerts", "False"), ("alert_count", "0"),
       ("max_severity_score", "0")] := by
  have hf : fetch_nws_alerts r = [] := by
    cases r with
    | transportError => rfl
    | response s fs =>
        unfold fetchFails at hr
        simp [fetch_nws_alerts, hr]
  refine ⟨hf, ?_, by decide⟩
  rw [hf]
  simp [integrate_weather_alerts, hc, hok]

/-- Witness for `feed_failure_degrades_amended`: a 503 response on a
one-row table. -/
theorem feed_failure_degrades_amended_witness :
    integrate_weather_alerts ["Organization Name", "CWA"]
      [[("Organization Name", Cell.str "Acme"), ("CWA", Cell.str "LOX")]]
      (fetch_nws_alerts (HttpResult.response 503 [])) 0 (fun _ => none) "T" =
      some ([[("Organization Name", Cell.str "Acme"),
              ("CWA", Cell.str "LOX")]].map
        (fun row => sanitizeRow (row ++ emptyDerivedCells))) :=
  (feed_failure_degrades_amended (HttpResult.response 503 [])
    (by show (503 : Nat) ≠ 200; decide)
    ["Organization Name", "CWA"]
    [[("Organization Name", Cell.str "Acme"), ("CWA", Cell.str "LOX")]]
    "CWA" rfl (by decide) 0 (fun _ => none) "T").2.1
